/-
Verification of the youtube_ollama pipeline against its design specification.

The Python modules under src/ are shallowly embedded as executable Lean
definitions: strings are Lean `String`s manipulated through their character
lists, Python floats carrying media timestamps are modelled as exact
rationals (`ℚ`), dictionaries are association lists with the insertion-order
and overwrite semantics of Python dicts, and every fallible operation
returns an `Option`/`Except` value instead of raising.  Each definition is
translated from the corresponding function in the source tree; the few
definitions that follow the specification's words instead (because the code
they describe is not part of src/, or because a claim is compared against
its own wording) say so in their doc comments.
-/
import Mathlib

namespace YT

/-! ## Basic character-list utilities (Python `str` surrogates).

Core `String` functions such as `splitOn`, `trim`, `toLower` are compiled by
well-founded recursion and do not reduce inside the kernel, so the Python
string operations are re-implemented structurally over `List Char`. -/

/-- Boolean prefix test on character lists.  (Core's `List.isPrefixOf` is
compiled to a matcher that inspects both arguments, which blocks kernel
reduction when the tail is a variable; this version cases on the pattern
list first.) -/
def charsPrefix : List Char → List Char → Bool
  | [], _ => true
  | _ :: _, [] => false
  | a :: as, b :: bs => (a == b) && charsPrefix as bs

/-- Python `haystack.__contains__(needle)`: substring test. -/
def charsContains (pat : List Char) : List Char → Bool
  | [] => pat.isEmpty
  | c :: t => charsPrefix pat (c :: t) || charsContains pat t

/-- `needle in haystack` for strings (Python `in` operator). -/
def strContains (hay pat : String) : Bool :=
  charsContains pat.toList hay.toList

/-- Python `str.split(sep)` on a single character, keeping empty pieces. -/
def splitCharList (sep : Char) : List Char → List (List Char)
  | [] => [[]]
  | c :: t =>
    if c == sep then [] :: splitCharList sep t
    else
      match splitCharList sep t with
      | [] => [[c]]
      | h :: r => (c :: h) :: r

/-- Python `text.split('\n')`. -/
def pySplitLines (s : String) : List String :=
  (splitCharList '\n' s.toList).map String.mk

/-- Python `str.split(sep)` where `sep` may be any of several characters
(used for `re.split(r'[,;]', line)`). -/
def splitAnyChar (seps : List Char) : List Char → List (List Char)
  | [] => [[]]
  | c :: t =>
    if seps.contains c then [] :: splitAnyChar seps t
    else
      match splitAnyChar seps t with
      | [] => [[c]]
      | h :: r => (c :: h) :: r

/-- Python `str.strip()` on a character list. -/
def trimChars (cs : List Char) : List Char :=
  ((cs.dropWhile Char.isWhitespace).reverse.dropWhile Char.isWhitespace).reverse

/-- Python `str.strip()`. -/
def pyStrip (s : String) : String :=
  String.mk (trimChars s.toList)

/-- Python `str.lower()` (ASCII case folding, which is all the source uses). -/
def pyLower (s : String) : String :=
  String.mk (s.toList.map Char.toLower)

/-- Python `str.startswith(prefix)`. -/
def strStarts (s pre : String) : Bool :=
  charsPrefix pre.toList s.toList

/-- Python `str.capitalize()`: first character upper-cased, rest lower-cased. -/
def pyCapitalize (s : String) : String :=
  match s.toList with
  | [] => ""
  | c :: rest => String.mk (c.toUpper :: rest.map Char.toLower)

/-- Python `s.split(sep, 1)` restricted to the case used by the source:
split at the first occurrence of a character, reporting `none` when the
character is absent (so the caller's `len(parts) == 2` test fails). -/
def splitFirstChar (sep : Char) : List Char → Option (List Char × List Char)
  | [] => none
  | c :: t =>
    if c == sep then some ([], t)
    else
      match splitFirstChar sep t with
      | none => none
      | some (a, b) => some (c :: a, b)

/-- Maximal leading run of decimal digits, with the remainder. -/
def takeDigits (cs : List Char) : List Char × List Char :=
  (cs.takeWhile Char.isDigit, cs.dropWhile Char.isDigit)

/-- Numeric value of a digit string. -/
def digitsVal (ds : List Char) : ℕ :=
  ds.foldl (fun a c => 10 * a + (c.toNat - 48)) 0

/-! ## TimestampNormalizer (src/agents/analysis_agent.py, `_extract_timestamps`)

The regex ladder `HH:MM:SS`, `MM:SS`, `XmYs`, `Xm`, `Xs`, float is embedded
with leftmost-match scanners.  Because `\d+` is always followed by a
non-digit literal in these patterns, maximal-munch digit runs coincide with
the regex engine's backtracking behaviour. -/

/-- Try `(\d+):(\d+):(\d+)` anchored at the head of the list. -/
def tryHMS (cs : List Char) : Option (ℕ × ℕ × ℕ) :=
  let (d1, r1) := takeDigits cs
  if d1.isEmpty then none
  else
    match r1 with
    | ':' :: r2 =>
      let (d2, r3) := takeDigits r2
      if d2.isEmpty then none
      else
        match r3 with
        | ':' :: r4 =>
          let (d3, _) := takeDigits r4
          if d3.isEmpty then none else some (digitsVal d1, digitsVal d2, digitsVal d3)
        | _ => none
    | _ => none

/-- Leftmost match of `(\d+):(\d+):(\d+)` (first element of `re.findall`). -/
def findHMS : List Char → Option (ℕ × ℕ × ℕ)
  | [] => none
  | c :: t =>
    match tryHMS (c :: t) with
    | some r => some r
    | none => findHMS t

/-- Try `(\d+):(\d+)` anchored at the head of the list. -/
def tryMS (cs : List Char) : Option (ℕ × ℕ) :=
  let (d1, r1) := takeDigits cs
  if d1.isEmpty then none
  else
    match r1 with
    | ':' :: r2 =>
      let (d2, _) := takeDigits r2
      if d2.isEmpty then none else some (digitsVal d1, digitsVal d2)
    | _ => none

/-- Leftmost match of `(\d+):(\d+)`. -/
def findMS : List Char → Option (ℕ × ℕ)
  | [] => none
  | c :: t =>
    match tryMS (c :: t) with
    | some r => some r
    | none => findMS t

/-- Try `(\d+)m(\d+)s` anchored at the head of the list. -/
def tryMdS (cs : List Char) : Option (ℕ × ℕ) :=
  let (d1, r1) := takeDigits cs
  if d1.isEmpty then none
  else
    match r1 with
    | 'm' :: r2 =>
      let (d2, r3) := takeDigits r2
      if d2.isEmpty then none
      else
        match r3 with
        | 's' :: _ => some (digitsVal d1, digitsVal d2)
        | _ => none
    | _ => none

/-- Leftmost match of `(\d+)m(\d+)s`. -/
def findMdS : List Char → Option (ℕ × ℕ)
  | [] => none
  | c :: t =>
    match tryMdS (c :: t) with
    | some r => some r
    | none => findMdS t

/-- Try `(\d+)m` anchored at the head of the list. -/
def tryXm (cs : List Char) : Option ℕ :=
  let (d1, r1) := takeDigits cs
  if d1.isEmpty then none
  else
    match r1 with
    | 'm' :: _ => some (digitsVal d1)
    | _ => none

/-- Leftmost match of `(\d+)m`. -/
def findXm : List Char → Option ℕ
  | [] => none
  | c :: t =>
    match tryXm (c :: t) with
    | some r => some r
    | none => findXm t

/-- Try `(\d+)s` anchored at the head of the list. -/
def tryXs (cs : List Char) : Option ℕ :=
  let (d1, r1) := takeDigits cs
  if d1.isEmpty then none
  else
    match r1 with
    | 's' :: _ => some (digitsVal d1)
    | _ => none

/-- Leftmost match of `(\d+)s`. -/
def findXs : List Char → Option ℕ
  | [] => none
  | c :: t =>
    match tryXs (c :: t) with
    | some r => some r
    | none => findXs t

/-- Try `(\d+\.\d+)` anchored at the head of the list. -/
def tryFloat (cs : List Char) : Option (ℕ × List Char) :=
  let (d1, r1) := takeDigits cs
  if d1.isEmpty then none
  else
    match r1 with
    | '.' :: r2 =>
      let (d2, _) := takeDigits r2
      if d2.isEmpty then none else some (digitsVal d1, d2)
    | _ => none

/-- Leftmost match of `(\d+\.\d+)`. -/
def findFloat : List Char → Option (ℕ × List Char)
  | [] => none
  | c :: t =>
    match tryFloat (c :: t) with
    | some r => some r
    | none => findFloat t

/-- Seconds denoted by an integer part and a fractional digit string
(Python floats carrying timestamps are modelled as exact rationals). -/
def floatVal (intPart : ℕ) (fracDigits : List Char) : ℚ :=
  (intPart : ℚ) + (digitsVal fracDigits : ℚ) / ((10 : ℚ) ^ fracDigits.length)

/-- The pattern ladder of `_extract_timestamps`, applied to one `value`
string: patterns are tried in the source's fixed order and the first
pattern with a match wins, using the source's seconds conversions. -/
def matchTimestampValue (value : String) : Option ℚ :=
  let cs := value.toList
  match findHMS cs with
  | some (h, m, s) => some ((h : ℚ) * 3600 + (m : ℚ) * 60 + (s : ℚ))
  | none =>
    match findMS cs with
    | some (m, s) => some ((m : ℚ) * 60 + (s : ℚ))
    | none =>
      match findMdS cs with
      | some (m, s) => some ((m : ℚ) * 60 + (s : ℚ))
      | none =>
        match findXm cs with
        | some x => some ((x : ℚ) * 60)
        | none =>
          match findXs cs with
          | some x => some (x : ℚ)
          | none =>
            match findFloat cs with
            | some (a, f) => some (floatVal a f)
            | none => none

/-- Python-dict upsert used for `times[key] = seconds`. -/
def upsertTimes (times : List (String × ℚ)) (k : String) (v : ℚ) : List (String × ℚ) :=
  if times.any (fun e => e.1 == k) then
    times.map (fun e => if e.1 == k then (e.1, v) else e)
  else times ++ [(k, v)]

/-- Lookup in the timestamps dict (`key in times` / `times[key]`). -/
def lookupTimes (times : List (String × ℚ)) (k : String) : Option ℚ :=
  match times.find? (fun e => e.1 == k) with
  | some e => some e.2
  | none => none

/-- `_extract_timestamps` (src/agents/analysis_agent.py, lines 121-164):
split the text into lines; for each line with a colon, take the part before
the first colon as the (stripped) key and run the pattern ladder over the
stripped remainder; the first matching pattern's seconds are stored under
the raw stripped key. -/
def extract_timestamps (text : String) : List (String × ℚ) :=
  (pySplitLines text).foldl
    (fun times line =>
      match splitFirstChar ':' line.toList with
      | none => times
      | some (k, v) =>
        match matchTimestampValue (pyStrip (String.mk v)) with
        | none => times
        | some secs => upsertTimes times (pyStrip (String.mk k)) secs)
    []

/-! ## ISO-8601 duration (src/agents/youtube_transcript_agent.py, `_parse_duration`)

`isodate.parse_duration` is an external library; it is modelled here
restricted to the integer `P[nD][T[nH][nM][nS]]` grammar that YouTube's
`contentDetails.duration` values use, returning `none` on anything else. -/

/-- Model of `isodate.parse_duration` restricted to integer day/hour/minute/
second components; `none` models the `ValueError` raised on malformed input. -/
def parseIsoDuration (s : String) : Option ℚ :=
  match s.toList with
  | 'P' :: rest =>
    let (dDigits, r1) := takeDigits rest
    match r1 with
    | 'D' :: r2 =>
      match r2 with
      | [] => if dDigits.isEmpty then none else some ((digitsVal dDigits : ℚ) * 86400)
      | 'T' :: r3 =>
        if dDigits.isEmpty then none
        else
          match parseIsoTime r3 with
          | some t => some ((digitsVal dDigits : ℚ) * 86400 + t)
          | none => none
      | _ => none
    | 'T' :: r2 => if dDigits.isEmpty then parseIsoTime r2 else none
    | _ => none
  | _ => none
where
  /-- The `[nH][nM][nS]` tail of the grammar; at least one component. -/
  parseIsoTime (cs : List Char) : Option ℚ :=
    let (hD, r1) := takeDigits cs
    match r1 with
    | 'H' :: r2 =>
      let (mD, r3) := takeDigits r2
      match r3 with
      | 'M' :: r4 =>
        let (sD, r5) := takeDigits r4
        match r5 with
        | 'S' :: [] =>
          if hD.isEmpty || mD.isEmpty || sD.isEmpty then none
          else some ((digitsVal hD : ℚ) * 3600 + (digitsVal mD : ℚ) * 60 + (digitsVal sD : ℚ))
        | _ => none
      | 'S' :: [] =>
        if hD.isEmpty || mD.isEmpty then none
        else some ((digitsVal hD : ℚ) * 3600 + (digitsVal mD : ℚ))
      | [] => if hD.isEmpty then none else some ((digitsVal hD : ℚ) * 3600)
      | _ => none
    | 'M' :: r2 =>
      let (sD, r3) := takeDigits r2
      match r3 with
      | 'S' :: [] =>
        if hD.isEmpty || sD.isEmpty then none
        else some ((digitsVal hD : ℚ) * 60 + (digitsVal sD : ℚ))
      | [] => if hD.isEmpty then none else some ((digitsVal hD : ℚ) * 60)
      | _ => none
    | 'S' :: [] => if hD.isEmpty then none else some (digitsVal hD : ℚ)
    | _ => none

/-- `_parse_duration` (src/agents/youtube_transcript_agent.py, lines 177-194):
`int(duration.total_seconds())` on success, `0` when parsing raises. -/
def parse_duration (s : String) : ℤ :=
  match parseIsoDuration s with
  | some q => ⌊q⌋
  | none => 0

/-! ## FallbackExtractor (src/agents/analysis_agent.py, `fallback_parsing`) -/

/-- One transcript entry (`{text, start, duration?}` dictionary). -/
structure TranscriptEntry where
  text : String
  start : ℚ
  duration : Option ℚ
deriving DecidableEq

/-- The parts of `self.input_data` that `fallback_parsing` reads. -/
structure InputData where
  title : String
  channel : String
  transcript : List TranscriptEntry
deriving DecidableEq

/-- `TopicSegment` (src/agents/analysis_agent.py, lines 20-24). -/
structure TopicSegment where
  topic : String
  start_time : ℚ
  end_time : ℚ
  key_points : List String
deriving DecidableEq

/-- The record assembled by `fallback_parsing` (the fields of
`VideoAnalysisData` other than `original_data`, which is copied through). -/
structure AnalysisOut where
  main_topics : List String
  topic_segments : List TopicSegment
  key_points : List String
  sentiment : String
  target_audience : List String
  language_level : String
  content_quality : ℤ
  engagement_hooks : List String
  summary : String
  educational_value : Option String
  content_warnings : List String
  related_topics : List String
deriving DecidableEq

/-- Section-header test (line 192 of analysis_agent.py): the stripped line
starts with a heading marker, or the lowered line contains one of the five
section keywords. -/
def isHeaderLine (line : String) : Bool :=
  strStarts (pyStrip line) "#" ||
    ["topics:", "sentiment:", "audience:", "key points:", "summary:"].any
      (fun x => strContains (pyLower line) x)

/-- Header clean-up (lines 193-196): strip + lower, drop a leading run of
heading markers and following whitespace, drop one trailing colon. -/
def cleanSectionName (line : String) : String :=
  let s := (pyLower (pyStrip line)).toList
  let s := if s.head? == some '#' then (s.dropWhile (· == '#')).dropWhile Char.isWhitespace else s
  let s := if s.getLast? == some ':' then s.dropLast else s
  String.mk s

/-- `sections[current_section] = []`: Python-dict semantics — an existing
key keeps its position and has its value reset, a new key is appended. -/
def resetKey (secs : List (String × List String)) (k : String) :
    List (String × List String) :=
  if secs.any (fun e => e.1 == k) then
    secs.map (fun e => if e.1 == k then (e.1, []) else e)
  else secs ++ [(k, [])]

/-- `sections[current_section].append(line.strip())`. -/
def appendKey (secs : List (String × List String)) (k v : String) :
    List (String × List String) :=
  secs.map (fun e => if e.1 == k then (e.1, e.2 ++ [v]) else e)

/-- The section-splitting loop (lines 189-199).  `cur` carries
`current_section` (whose Python truthiness — non-empty string — guards
content accumulation). -/
def splitSectionsGo (secs : List (String × List String)) (cur : Option String) :
    List String → List (String × List String)
  | [] => secs
  | line :: rest =>
    if isHeaderLine line then
      splitSectionsGo (resetKey secs (cleanSectionName line)) (some (cleanSectionName line)) rest
    else
      match cur with
      | some k =>
        if k ≠ "" ∧ pyStrip line ≠ "" then
          splitSectionsGo (appendKey secs k (pyStrip line)) (some k) rest
        else splitSectionsGo secs (some k) rest
      | none => splitSectionsGo secs none rest

/-- `' '.join(content)`. -/
def joinSp : List String → String
  | [] => ""
  | [x] => x
  | x :: xs => x ++ " " ++ joinSp xs

/-- `line.startswith(('-', '*', '•'))`. -/
def bulletStart (line : String) : Bool :=
  strStarts line "-" || strStarts line "*" || strStarts line "•"

/-- `re.sub(r'^[-*•]\s*', '', line)`. -/
def stripBullet (line : String) : String :=
  match line.toList with
  | c :: rest =>
    if c == '-' || c == '*' || c == '•' then
      String.mk (rest.dropWhile Char.isWhitespace)
    else line
  | [] => line

/-- Bulleted list items of a section (lines 208 and 235). -/
def bulletItems (content : List String) : List String :=
  (content.filter bulletStart).map stripBullet

/-- `',' in line or ';' in line`. -/
def hasCommaSemi (line : String) : Bool :=
  line.toList.any (fun c => c == ',' || c == ';')

/-- `[t.strip() for t in re.split(r'[,;]', line) if t.strip()]`. -/
def splitCommaSemi (line : String) : List String :=
  ((splitAnyChar [',', ';'] line.toList).map (fun cs => pyStrip (String.mk cs))).filter
    (fun t => t ≠ "")

/-- The main-topics branch (lines 206-215): bulleted items win; otherwise
the last content line containing a comma or semicolon is split; otherwise
the previous value is kept. -/
def topicsOf (old : List String) (name : String) (content : List String) : List String :=
  if strContains name "topic" || strContains name "main" then
    let t := bulletItems content
    if t.isEmpty then
      content.foldl (fun acc line => if hasCommaSemi line then splitCommaSemi line else acc) old
    else t
  else old

/-- The sentiment branch's keyword scan (lines 218-223): the five keywords
are tried in the source's fixed order and the first one contained anywhere
in the lowered text wins. -/
def sentimentScan (ctext : String) (cur : String) : String :=
  match ["positive", "negative", "neutral", "mixed", "controversial"].find?
      (fun k => strContains (pyLower ctext) k) with
  | some k => pyCapitalize k
  | none => cur

/-- The sentiment branch, guarded by the section name (line 218). -/
def sentimentOf (cur name ctext : String) : String :=
  if strContains name "sentiment" || strContains name "tone" then sentimentScan ctext cur
  else cur

/-- The language-level branch (lines 226-231). -/
def languageOf (cur name ctext : String) : String :=
  if strContains name "language" || strContains name "education" then
    match ["beginner", "intermediate", "advanced", "technical", "academic", "professional"].find?
        (fun k => strContains (pyLower ctext) k) with
    | some k => pyCapitalize k
    | none => cur
  else cur

/-- The key-points branch (lines 234-237). -/
def keyPointsOf (old : List String) (name : String) (content : List String) : List String :=
  if strContains name "key point" || strContains name "main point" then
    let p := bulletItems content
    if p.isEmpty then old else p
  else old

/-- The summary branch (lines 240-241). -/
def summaryOf (old name ctext : String) : String :=
  if strContains name "summary" then ctext else old

/-- Python truthiness of `end_time` in `if not end_time and ...`
(line 254): `None` and `0.0` are falsy. -/
def endTimeFalsy : Option ℚ → Bool
  | none => true
  | some q => q == 0

/-- The topic-segment branch (lines 243-266), run for every section: the
section's timestamps dict is built, and for every current main topic whose
lowered name is a key, a segment is appended.  The end-time search over the
other topics is followed (faithfully to the source) by the inverted
`if not end_time and transcript: ... else: start + 300` default, which
overwrites any end time the search found. -/
def segsOf (input : InputData) (topics : List String) (ctext : String) :
    List TopicSegment :=
  let ts := extract_timestamps ctext
  topics.filterMap
    (fun topic =>
      match lookupTimes ts (pyLower topic) with
      | none => none
      | some st =>
        let endOpt := topics.foldl
          (fun e t =>
            if t ≠ topic then
              match lookupTimes ts (pyLower t) with
              | some v =>
                if st < v then
                  match e with
                  | none => some v
                  | some cur => if v < cur then some v else e
                else e
              | none => e
            else e)
          none
        let endT : ℚ :=
          if endTimeFalsy endOpt && !input.transcript.isEmpty then
            match input.transcript.getLast? with
            | some last => last.start + last.duration.getD 0
            | none => st + 300
          else st + 300
        some ⟨topic, st, endT, []⟩)

/-- The per-iteration state of the section-processing loop. -/
structure ExtractState where
  main_topics : List String
  topic_segments : List TopicSegment
  key_points : List String
  sentiment : String
  language_level : String
  summary : String
deriving DecidableEq

/-- The sentinel summary that `fallback_parsing` initialises and later
tests for (lines 180 and 278). -/
def failSentinel : String := "Analysis failed. Summary could not be extracted."

/-- The loop's initial state (lines 172-180). -/
def initExtractState : ExtractState :=
  ⟨[], [], [], "Unknown", "Unknown", failSentinel⟩

/-- One iteration of `for section, content in sections.items()` (lines
202-266).  The topics branch runs before the segment branch, so the
segment branch sees the updated topic list, matching the source's
statement order. -/
def processSection (input : InputData) (st : ExtractState)
    (sec : String × List String) : ExtractState :=
  let name := sec.1
  let content := sec.2
  let ctext := joinSp content
  let newTopics := topicsOf st.main_topics name content
  { main_topics := newTopics
    topic_segments := st.topic_segments ++ segsOf input newTopics ctext
    key_points := keyPointsOf st.key_points name content
    sentiment := sentimentOf st.sentiment name ctext
    language_level := languageOf st.language_level name ctext
    summary := summaryOf st.summary name ctext }

/-- `re.match(r'^\d+\.', line)`. -/
def startsNumDot (line : String) : Bool :=
  let (d, r) := takeDigits line.toList
  !d.isEmpty && r.head? == some '.'

/-- Drop a leading `\d+\.` prefix if present (the `^`-anchored alternative
of the step-8 clean-up regex, which can only fire at position 0). -/
def stripNumDot (cs : List Char) : List Char :=
  let (d, r) := takeDigits cs
  if !d.isEmpty && r.head? == some '.' then r.tail else cs

/-- The unanchored alternatives of `re.sub(r'^\d+\.|-|\*|•\s*', '', line)`:
every `-` and `*` anywhere is removed, and every `•` is removed together
with the whitespace run that follows it. -/
def removeBulletChars (skipWs : Bool) : List Char → List Char
  | [] => []
  | c :: t =>
    if skipWs && c.isWhitespace then removeBulletChars true t
    else if c == '-' || c == '*' then removeBulletChars false t
    else if c == '•' then removeBulletChars true t
    else c :: removeBulletChars false t

/-- The clean-up applied to a step-8 candidate line (line 273). -/
def cleanStep8 (line : String) : String :=
  pyStrip (String.mk (removeBulletChars false (stripNumDot line.toList)))

/-- The last-resort topic scan over the raw lines (lines 269-275):
numbered or bulleted lines whose cleaned text has length strictly between
3 and 100. -/
def step8Topics (lines : List String) : List String :=
  lines.foldl
    (fun acc line =>
      if startsNumDot line || bulletStart line then
        let cleaned := cleanStep8 line
        if 3 < cleaned.length ∧ cleaned.length < 100 then acc ++ [cleaned] else acc
      else acc)
    []

/-- The generated summary of step 9 (line 281). -/
def genericSummary (input : InputData) : String :=
  "This video titled '" ++ input.title ++ "' by " ++ input.channel ++
    " covers various topics that could not be automatically extracted. A manual review is recommended."

/-- `fallback_parsing` on an already split line list (the body of
src/agents/analysis_agent.py lines 166-298 after `raw_text.split('\n')`). -/
def fallbackCore (input : InputData) (lines : List String) : AnalysisOut :=
  let secs := splitSectionsGo [] none lines
  let st := secs.foldl (processSection input) initExtractState
  let topics1 := if st.main_topics.isEmpty then step8Topics lines else st.main_topics
  let summary1 := if st.summary == failSentinel then genericSummary input else st.summary
  { main_topics := if topics1.isEmpty then ["Topic extraction failed"] else topics1.take 7
    topic_segments := st.topic_segments
    key_points := if st.key_points.isEmpty then ["Key points extraction failed"] else st.key_points.take 8
    sentiment := st.sentiment
    target_audience := ["General audience"]
    language_level := st.language_level
    content_quality := 5
    engagement_hooks := []
    summary := summary1
    educational_value := none
    content_warnings := []
    related_topics := [] }

/-- `fallback_parsing` (src/agents/analysis_agent.py, lines 166-298). -/
def fallback_parsing (input : InputData) (raw_text : String) : AnalysisOut :=
  fallbackCore input (pySplitLines raw_text)

/-! ## JSON values and `json.loads`

`json.loads` is the standard library; it is modelled by a recursive-descent
decoder over the JSON grammar (objects, arrays, strings with the common
escapes, integer/decimal numbers, literals), which covers every shape this
repository's record types use; `none` models `json.JSONDecodeError`.  The
decoder requires the whole string to be consumed up to trailing
whitespace, as `json.loads` does. -/

/-- A decoded JSON value. -/
inductive JVal where
  | jnull : JVal
  | jbool : Bool → JVal
  | jnum : ℚ → JVal
  | jstr : String → JVal
  | jarr : List JVal → JVal
  | jobj : List (String × JVal) → JVal

/-- JSON insignificant whitespace. -/
def skipWsJ (cs : List Char) : List Char :=
  cs.dropWhile (fun c => c == ' ' || c == '\n' || c == '\t' || c == '\r')

/-- The two-character escape table of a JSON string. -/
def jsonEscapeTable : List (Char × Char) :=
  [('"', '"'), ('\\', '\\'), ('/', '/'), ('n', '\n'), ('t', '\t'),
    ('r', '\r'), ('b', Char.ofNat 8), ('f', Char.ofNat 12)]

/-- One escape character of a JSON string. -/
def jsonEscape (c : Char) : Option Char :=
  (jsonEscapeTable.find? (fun e => e.1 == c)).map (fun e => e.2)

/-- JSON string body, positioned after the opening quote; returns the
decoded characters and the remainder after the closing quote. -/
def parseStrChars : List Char → Option (List Char × List Char)
  | [] => none
  | '"' :: rest => some ([], rest)
  | '\\' :: e :: rest =>
    match jsonEscape e with
    | none => none
    | some c =>
      match parseStrChars rest with
      | none => none
      | some (l, r) => some (c :: l, r)
  | '\\' :: [] => none
  | c :: rest =>
    match parseStrChars rest with
    | none => none
    | some (l, r) => some (c :: l, r)

/-- JSON number: optional sign, integer part, optional fraction. -/
def parseNumberJ (cs : List Char) : Option (JVal × List Char) :=
  let (neg, cs1) := match cs with
    | '-' :: t => (true, t)
    | _ => (false, cs)
  let (d, r1) := takeDigits cs1
  if d.isEmpty then none
  else
    let mk : ℚ → JVal := fun q => .jnum (if neg then -q else q)
    match r1 with
    | '.' :: r2 =>
      let (f, r3) := takeDigits r2
      if f.isEmpty then none else some (mk (floatVal (digitsVal d) f), r3)
    | _ => some (mk (digitsVal d : ℚ), r1)

/-- The decoder.  The second argument selects the production: `0` a value,
`1` the members of a non-empty object (returns `jobj`), `2` the elements of
a non-empty array (returns `jarr`).  The fuel strictly exceeds twice the
input length, which bounds the recursion depth. -/
def parseJsonF : ℕ → ℕ → List Char → Option (JVal × List Char)
  | 0, _, _ => none
  | f + 1, 0, cs =>
    let cs := skipWsJ cs
    if charsPrefix "true".toList cs then some (.jbool true, cs.drop 4)
    else if charsPrefix "false".toList cs then some (.jbool false, cs.drop 5)
    else if charsPrefix "null".toList cs then some (.jnull, cs.drop 4)
    else
      match cs with
      | '"' :: rest =>
        match parseStrChars rest with
        | none => none
        | some (l, r) => some (.jstr (String.mk l), r)
      | '\x7b' :: rest =>
        match skipWsJ rest with
        | '\x7d' :: r2 => some (.jobj [], r2)
        | r => parseJsonF f 1 r
      | '[' :: rest =>
        match skipWsJ rest with
        | ']' :: r2 => some (.jarr [], r2)
        | r => parseJsonF f 2 r
      | _ => parseNumberJ cs
  | f + 1, 1, cs =>
    match skipWsJ cs with
    | '"' :: rest =>
      match parseStrChars rest with
      | none => none
      | some (key, r1) =>
        match skipWsJ r1 with
        | ':' :: r2 =>
          match parseJsonF f 0 r2 with
          | none => none
          | some (v, r3) =>
            match skipWsJ r3 with
            | ',' :: r4 =>
              match parseJsonF f 1 r4 with
              | some (.jobj fs, r5) => some (.jobj ((String.mk key, v) :: fs), r5)
              | _ => none
            | '\x7d' :: r4 => some (.jobj [(String.mk key, v)], r4)
            | _ => none
        | _ => none
    | _ => none
  | f + 1, 2, cs =>
    match parseJsonF f 0 cs with
    | none => none
    | some (v, r1) =>
      match skipWsJ r1 with
      | ',' :: r2 =>
        match parseJsonF f 2 r2 with
        | some (.jarr vs, r3) => some (.jarr (v :: vs), r3)
        | _ => none
      | ']' :: r2 => some (.jarr [v], r2)
      | _ => none
  | _ + 1, _ + 3, _ => none

/-- Model of `json.loads`: decode one value and require only whitespace to
remain. -/
def jsonLoads (s : String) : Option JVal :=
  match parseJsonF (2 * s.length + 8) 0 s.toList with
  | some (v, rest) => if (skipWsJ rest).isEmpty then some v else none
  | none => none

/-! ## Strict output parsing
(src/agents/transcript_insight_agent.py, `_parse_json_response` and `run`) -/

/-- Suffix after the first occurrence of `pat`. -/
def afterSub (pat : List Char) : List Char → Option (List Char)
  | [] => if pat.isEmpty then some [] else none
  | c :: t =>
    if charsPrefix pat (c :: t) then some ((c :: t).drop pat.length)
    else afterSub pat t

/-- Prefix before the first occurrence of `pat`. -/
def beforeSub (pat : List Char) : List Char → Option (List Char)
  | [] => if pat.isEmpty then some [] else none
  | c :: t =>
    if charsPrefix pat (c :: t) then some []
    else
      match beforeSub pat t with
      | none => none
      | some r => some (c :: r)

/-- The group captured by `re.search(r'```json\s*([\s\S]*?)\s*```', s)`:
the text between the first ` ```json ` fence and the next ` ``` ` fence,
with surrounding whitespace absorbed by the greedy `\s*`s. -/
def findFencedJson (s : String) : Option String :=
  match afterSub "```json".toList s.toList with
  | none => none
  | some t =>
    match beforeSub "```".toList t with
    | none => none
    | some content => some (pyStrip (String.mk content))

/-- The group captured by `re.search(r'({[\s\S]*})', s)`: the greedy span
from the first opening brace to the last closing brace after it. -/
def braceSpan (s : String) : Option String :=
  let cs := s.toList
  let pre := cs.takeWhile (fun c => c != '\x7b')
  if pre.length == cs.length then none
  else
    let tail := cs.drop pre.length
    let afterLast := tail.reverse.takeWhile (fun c => c != '\x7d')
    if afterLast.length == tail.length then none
    else some (String.mk (tail.take (tail.length - afterLast.length)))

/-- `_parse_json_response` (src/agents/transcript_insight_agent.py, lines
139-147): the fenced-block regex is tried first, then the greedy brace
regex, and only if neither matched is the whole response decoded; `none`
models the `json.JSONDecodeError` that the caller turns into fallback
parsing. -/
def parse_json_response (response : String) : Option JVal :=
  match findFencedJson response with
  | some inner => jsonLoads inner
  | none =>
    match braceSpan response with
    | some span => jsonLoads span
    | none => jsonLoads response

/-- First balanced brace-delimited span, starting at the first opening
brace.  Follows the specification's words (§4.3 stage (c)) for comparison
with the source's greedy `braceSpan`. -/
def specBalancedSpan (s : String) : Option String :=
  scanOpen s.toList
where
  /-- Find the first opening brace. -/
  scanOpen : List Char → Option String
    | [] => none
    | c :: t => if c == '\x7b' then (scanBody 1 ['\x7b'] t) else scanOpen t
  /-- Depth-counting scan for the matching close brace. -/
  scanBody (depth : ℕ) (acc : List Char) : List Char → Option String
    | [] => none
    | c :: t =>
      if c == '\x7b' then scanBody (depth + 1) (c :: acc) t
      else if c == '\x7d' then
        if depth == 1 then some (String.mk (c :: acc).reverse)
        else scanBody (depth - 1) (c :: acc) t
      else scanBody depth (c :: acc) t

/-- The strict-parsing staging as the specification words it (§4.3):
direct decode of the whole text, then the fenced block, then the first
balanced brace span, stopping at the first success.  Defined from the
spec's words, for comparison with `parse_json_response`. -/
def specStrictParse (s : String) : Option JVal :=
  match jsonLoads s with
  | some v => some v
  | none =>
    match (findFencedJson s).bind jsonLoads with
    | some v => some v
    | none => (specBalancedSpan s).bind jsonLoads

/-! ## TranscriptInsightsAgent (src/agents/transcript_insight_agent.py)

The agent's record type `VideoAnalysisData` is imported from
`models/data_models.py`, which is not part of src/; the fields the agent
reads and writes are modelled below, and its construction defaults are
modelled from the spec where noted. -/

/-- The insights record fields the agent populates. -/
structure InsightsData where
  summary : String
  main_topics : List String
  key_points : List String
  software_mentions : List (String × String)
deriving DecidableEq

/-- Modelled from the spec: the defaults of `models/data_models.py`'s
`VideoAnalysisData` when constructed from `original_data` alone (the file
is absent from src/).  Spec §3 requires a non-empty summary and §4.4 step 9
with §8 require the synthesized summary to reference the video's title and
channel and to be explicitly marked as auto-generated. -/
def defaultInsights (title channel : String) : InsightsData :=
  { summary := "auto-generated" ++ (" placeholder summary for '" ++ title ++ "' by " ++ channel ++ ".")
    main_topics := []
    key_points := []
    software_mentions := [] }

/-- `insights_data.get(key, "")` for string fields; `none` models the
`TypeError`/validation error raised when the value has the wrong shape,
which the caller's `except` turns into fallback parsing. -/
def getStrD (fs : List (String × JVal)) (k : String) : Option String :=
  match (fs.reverse.find? (fun e => e.1 == k)) with
  | none => some ""
  | some (_, .jstr s) => some s
  | some _ => none

/-- `insights_data.get(key, [])` for string-list fields. -/
def getStrListD (fs : List (String × JVal)) (k : String) : Option (List String) :=
  match (fs.reverse.find? (fun e => e.1 == k)) with
  | none => some []
  | some (_, .jarr vs) =>
    vs.foldr
      (fun v acc =>
        match v, acc with
        | .jstr s, some l => some (s :: l)
        | _, _ => none)
      (some [])
  | some _ => none

/-- `item.get("name", "")`/`item.get("description", "")` over the
`software_mentions` array. -/
def getMentions (fs : List (String × JVal)) : Option (List (String × String)) :=
  match (fs.reverse.find? (fun e => e.1 == k)) with
  | none => some []
  | some (_, .jarr vs) =>
    vs.foldr
      (fun v acc =>
        match v, acc with
        | .jobj item, some l =>
          match getStrD item "name", getStrD item "description" with
          | some n, some d => some ((n, d) :: l)
          | _, _ => none
        | _, _ => none)
      (some [])
  | some _ => none
where k : String := "software_mentions"

/-- Building the result record from decoded insights (lines 115-127);
`none` models a raised error during construction, routed to fallback. -/
def buildInsights (fs : List (String × JVal)) : Option InsightsData :=
  match getStrD fs "summary", getStrListD fs "main_topics",
      getStrListD fs "key_points", getMentions fs with
  | some s, some mt, some kp, some sm => some ⟨s, mt, kp, sm⟩
  | _, _, _, _ => none

/-- `re.search(r'"summary"\s*:\s*"([^"]+)"', raw_text)` tried at each
position, leftmost match first. -/
def summaryScan : List Char → Option String
  | [] => none
  | c :: t =>
    match tryAt (c :: t) with
    | some r => some r
    | none => summaryScan t
where
  /-- The pattern anchored at the head of the list. -/
  tryAt (cs : List Char) : Option String :=
    if charsPrefix "\"summary\"".toList cs then
      let r1 := (cs.drop 9).dropWhile Char.isWhitespace
      match r1 with
      | ':' :: r2 =>
        match r2.dropWhile Char.isWhitespace with
        | '"' :: r3 =>
          let content := r3.takeWhile (fun c => c != '"')
          if content.isEmpty then none
          else if (r3.drop content.length).head? == some '"' then some (String.mk content)
          else none
        | _ => none
      | _ => none
    else none

/-- The head-anchored attempt of `re.findall(r'"name"\s*:\s*"([^"]+)"', s)`,
returning the captured name and the remainder after the match. -/
def nameTryAt (cs : List Char) : Option (String × List Char) :=
  if charsPrefix "\"name\"".toList cs then
    let r1 := (cs.drop 6).dropWhile Char.isWhitespace
    match r1 with
    | ':' :: r2 =>
      match r2.dropWhile Char.isWhitespace with
      | '"' :: r3 =>
        let content := r3.takeWhile (fun c => c != '"')
        if content.isEmpty then none
        else if (r3.drop content.length).head? == some '"' then
          some (String.mk content, r3.drop (content.length + 1))
        else none
      | _ => none
    | _ => none
  else none

/-- `re.findall(r'"name"\s*:\s*"([^"]+)"', s)`: all non-overlapping
matches, scanning left to right (the fuel strictly exceeds the input
length). -/
def namesScan : ℕ → List Char → List String
  | 0, _ => []
  | _ + 1, [] => []
  | f + 1, c :: t =>
    match nameTryAt (c :: t) with
    | some (nm, rest) => nm :: namesScan f rest
    | none => namesScan f t

/-- `fallback_parsing` of the insights agent (lines 149-170): regex
extraction of the summary and of all software names. -/
def insightsFallback (raw_text : String) : InsightsData :=
  { summary := (summaryScan raw_text.toList).getD "Summary extraction failed"
    main_topics := []
    key_points := []
    software_mentions :=
      (namesScan (raw_text.length + 1) raw_text.toList).map
        (fun n => (n, "Extracted via fallback parsing")) }

/-- `TranscriptInsightsAgent.run` (lines 98-137) given the model's raw
response text.  Returns the produced record and whether the model was
invoked: an empty transcript short-circuits to the default record before
any model call; a decoded non-mapping value or a construction error routes
to fallback parsing, as does a decode failure. -/
def insightsRun (title channel : String) (transcript : List TranscriptEntry)
    (response : String) : InsightsData × Bool :=
  if transcript.isEmpty then (defaultInsights title channel, false)
  else
    match parse_json_response response with
    | some (.jobj fs) =>
      match buildInsights fs with
      | some r => (r, true)
      | none => (insightsFallback response, true)
    | some _ => (insightsFallback response, true)
    | none => (insightsFallback response, true)

/-! ## URL parsing (src/api_services/transcript_service.py) -/

/-- The components of `urllib.parse.urlparse` that the source reads. -/
structure UrlParts where
  scheme : String
  netloc : String
  path : String
  query : String
  fragment : String
deriving DecidableEq

/-- Split at the first occurrence of a character, keeping both sides
(the whole input and `""` when the character is absent). -/
def splitOnceD (sep : Char) (cs : List Char) : List Char × List Char :=
  match splitFirstChar sep cs with
  | some (a, b) => (a, b)
  | none => (cs, [])

/-- Scheme characters accepted by `urlparse`. -/
def isSchemeChar (c : Char) : Bool :=
  c.isAlpha || c.isDigit || c == '+' || c == '-' || c == '.'

/-- Model of `urllib.parse.urlparse` restricted to scheme, netloc, path,
query and fragment (the source only reads netloc, path and query; the
params/semicolon refinement is not modelled).  Percent-decoding is not
modelled. -/
def pyUrlparse (url : String) : UrlParts :=
  let (beforeFrag, frag) := splitOnceD '#' url.toList
  let (scheme, rest) :=
    match splitFirstChar ':' beforeFrag with
    | some (pre, post) =>
      if !pre.isEmpty && (pre.head?.map Char.isAlpha).getD false && pre.all isSchemeChar then
        (String.mk (pre.map Char.toLower), post)
      else ("", beforeFrag)
    | none => ("", beforeFrag)
  let (netloc, rest2) :=
    if charsPrefix "//".toList rest then
      let t := rest.drop 2
      let nl := t.takeWhile (fun c => c != '/' && c != '?')
      (String.mk nl, t.drop nl.length)
    else ("", rest)
  let (path, query) := splitOnceD '?' rest2
  ⟨scheme, netloc, String.mk path, String.mk query, String.mk frag⟩

/-- Model of `urllib.parse.parse_qs(query)['v']`: the values of key `v` in
order, from `&`-separated `k=v` pairs, dropping pairs without `=` and
pairs with empty values (percent-decoding not modelled). -/
def parseQsV (query : String) : List String :=
  (splitCharList '&' query.toList).foldr
    (fun pair acc =>
      match splitFirstChar '=' pair with
      | some (k, v) =>
        if String.mk k == "v" && !v.isEmpty then String.mk v :: acc else acc
      | none => acc)
    []

/-- `get_video_id_from_url` (src/api_services/transcript_service.py, lines
9-26).  Total by construction; the `except` wrapper that converts any
raised error into `None` is modelled by the `none` results. -/
def get_video_id_from_url (url : String) : Option String :=
  let u := pyUrlparse url
  if u.netloc = "youtu.be" then some (String.mk (u.path.toList.drop 1))
  else if u.netloc = "www.youtube.com" ∨ u.netloc = "youtube.com" then
    if u.path = "/watch" then (parseQsV u.query).head?
    else if String.mk (u.path.toList.take 7) = "/embed/" then
      ((splitCharList '/' u.path.toList).map String.mk).get? 2
    else if String.mk (u.path.toList.take 3) = "/v/" then
      ((splitCharList '/' u.path.toList).map String.mk).get? 2
    else none
  else none

/-- The recognized YouTube URL shapes of the claim, phrased over the
parsed components. -/
def RecognizedYoutubeUrl (u : UrlParts) (id : String) : Prop :=
  (u.netloc = "youtu.be" ∧ id = String.mk (u.path.toList.drop 1))
  ∨ ((u.netloc = "www.youtube.com" ∨ u.netloc = "youtube.com") ∧ u.path = "/watch" ∧
      (parseQsV u.query).head? = some id)
  ∨ ((u.netloc = "www.youtube.com" ∨ u.netloc = "youtube.com") ∧
      String.mk (u.path.toList.take 7) = "/embed/" ∧
      ((splitCharList '/' u.path.toList).map String.mk).get? 2 = some id)
  ∨ ((u.netloc = "www.youtube.com" ∨ u.netloc = "youtube.com") ∧
      String.mk (u.path.toList.take 3) = "/v/" ∧
      ((splitCharList '/' u.path.toList).map String.mk).get? 2 = some id)

/-! ## Workflow orchestration (src/graph/workflow_manager.py,
src/state/workflow_state.py, src/nodes/transcript_analysis_node.py,
src/agents/youtube_transcript_agent.py)

The external collaborators (YouTube Data API, transcript service, Ollama)
are supplied through an environment record; their outcomes parameterise the
run exactly where the source calls them. -/

/-- The metadata fields of the YouTube Data API response that
`YouTubeTranscriptAgent.run` reads. -/
structure MetaData where
  title : String
  description : String
  channelTitle : String
  publishedAt : String
  durationIso : String
deriving DecidableEq

/-- Outcomes of the external calls made during one workflow run. -/
structure WorkflowEnv where
  /-- Python truthiness of `os.getenv('YT_DATA_API_KEY')`. -/
  apiKeyPresent : Bool
  /-- `get_youtube_video_data`: `Except.error` models a raised error,
  `Except.ok none` a falsy/absent response. -/
  metadataOutcome : Except Unit (Option MetaData)
  /-- `get_video_transcript_data`: the transcript list when the fetch
  succeeded, `none` when it returned `None` (it catches its own errors). -/
  transcriptFetch : Option (List TranscriptEntry)
  /-- The raw text returned by the Ollama model for the insights prompt. -/
  modelResponse : String
  /-- Whether the analysis node's work outside the agent (state conversion,
  output file write) raises, which its `except` clause absorbs. -/
  analysisRaises : Bool
  /-- The optional model-name argument. -/
  modelName : Option String

/-- The video record fields the workflow carries
(`YouTubeVideoData` of models/data_models.py as used by the agents). -/
structure VideoData where
  video_id : String
  title : String
  description : String
  channel : String
  published_at : String
  transcript : List TranscriptEntry
  duration : ℤ
deriving DecidableEq

/-- `WorkflowState` (src/state/workflow_state.py, lines 5-27).  The two
wall-clock timestamps are modelled only by whether they were set. -/
structure WorkflowState where
  video_id : Option String
  video_url : Option String
  model_name : Option String
  transcript_extraction_completed : Bool
  transcript_analysis_completed : Bool
  video_data : Option VideoData
  analysis_result : Option InsightsData
  error : Option String
  error_node : Option String
  start_time_set : Bool
  end_time_set : Bool
deriving DecidableEq

/-- `YouTubeTranscriptAgent.run` (src/agents/youtube_transcript_agent.py,
lines 78-175): metadata is fetched first, then the transcript; a raised
error anywhere yields the minimal record with an empty transcript, a falsy
metadata response yields the minimal record that keeps any fetched
transcript segments.  The function itself never raises. -/
def transcriptAgentRun (env : WorkflowEnv) (vid : String) : VideoData :=
  match env.metadataOutcome with
  | .error _ =>
    { video_id := vid, title := "Error retrieving data",
      description := "An error occurred while retrieving video data",
      channel := "Unknown", published_at := "Unknown",
      transcript := [], duration := 0 }
  | .ok mOpt =>
    let segs := (env.transcriptFetch).getD []
    match mOpt with
    | some m =>
      { video_id := vid, title := m.title, description := m.description,
        channel := m.channelTitle, published_at := m.publishedAt,
        transcript := segs, duration := parse_duration m.durationIso }
    | none =>
      { video_id := vid, title := "Error retrieving data",
        description := "An error occurred while retrieving video data",
        channel := "Unknown", published_at := "Unknown",
        transcript := segs, duration := 0 }

/-- `TranscriptAnalysisNode.process` (src/nodes/transcript_analysis_node.py,
lines 20-65) as it updates the state: returns the analysis result, the
error message, the `transcript_analysis_completed` flag, and whether the
model was invoked.  On a missing video record or a raised error the node
records only `error` (it never writes `error_node`). -/
def analysisNodeProcess (env : WorkflowEnv) (vdOpt : Option VideoData) :
    Option InsightsData × Option String × Bool × Bool :=
  match vdOpt with
  | none => (none, some "Missing video data", false, false)
  | some vd =>
    if env.analysisRaises then (none, some "analysis node error", false, false)
    else
      let (r, invoked) := insightsRun vd.title vd.channel vd.transcript env.modelResponse
      (some r, none, true, invoked)

/-- `run_workflow` (src/graph/workflow_manager.py, lines 31-104).  Returns
the final state and whether the model was invoked.  Total: every raised
error inside the body is absorbed by the branch that the source's
`try`/`except` gives it.  The guard on the extracted video id reproduces
Python's `if not video_id` truthiness (both `None` and `""` fail). -/
def run_workflow (env : WorkflowEnv) (video_url : String) : WorkflowState × Bool :=
  let st0 : WorkflowState :=
    { video_id := none, video_url := some video_url, model_name := env.modelName,
      transcript_extraction_completed := false, transcript_analysis_completed := false,
      video_data := none, analysis_result := none, error := none, error_node := none,
      start_time_set := true, end_time_set := false }
  match get_video_id_from_url video_url with
  | none =>
    ({ st0 with error := some "Invalid YouTube URL", error_node := some "workflow_manager" },
      false)
  | some vid =>
    if vid = "" then
      ({ st0 with error := some "Invalid YouTube URL", error_node := some "workflow_manager" },
        false)
    else if !env.apiKeyPresent then
      ({ st0 with error := some "Missing YouTube API key", error_node := some "workflow_manager" },
        false)
    else
      let vd := transcriptAgentRun env vid
      let st1 := { st0 with
        video_id := some vid
        video_data := some vd
        transcript_extraction_completed := true }
      let out := analysisNodeProcess env st1.video_data
      ({ st1 with
          analysis_result := out.1
          error := out.2.1
          transcript_analysis_completed := out.2.2.1
          end_time_set := true },
        out.2.2.2)

/-! ## Schema validation (src/agents/analysis_agent.py `VideoAnalysisData`,
src/agents/base_agent.py `parse_structured_output`)

Pydantic validation of a decoded candidate mapping, restricted to a
representative subset of the declared fields: `summary: str`,
`main_topics: List[str]`, `key_points: List[str]` and
`content_quality: int = Field(ge=1, le=10)`.  The remaining fields behave
the same way (required unless a default is declared; a constraint or shape
violation raises `ValidationError` for the whole record). -/

/-- The validated subset of `VideoAnalysisData`. -/
structure AnalysisRecordV where
  summary : String
  main_topics : List String
  key_points : List String
  content_quality : ℤ
deriving DecidableEq

/-- Last-wins field lookup in a decoded JSON object (duplicate keys in the
source text leave the last occurrence in a Python dict). -/
def lookupField (fs : List (String × JVal)) (k : String) : Option JVal :=
  (fs.reverse.find? (fun e => e.1 == k)).map (fun e => e.2)

/-- Pydantic lax coercion to `int`: integers pass, integral floats pass,
numeric strings pass, everything else fails. -/
def pyIntCoerce : JVal → Option ℤ
  | .jnum q => if q.den = 1 then some q.num else none
  | .jstr s =>
    let cs := s.toList
    let (neg, cs1) := match cs with
      | '-' :: t => (true, t)
      | _ => (false, cs)
    let (d, r) := takeDigits cs1
    if !d.isEmpty && r.isEmpty then
      some (if neg then -(digitsVal d : ℤ) else (digitsVal d : ℤ))
    else none
  | _ => none

/-- Validation of `content_quality: int = Field(ge=1, le=10)`:
required, coerced to int, then range-checked — never clamped. -/
def validateContentQuality (fs : List (String × JVal)) : Except String ℤ :=
  match lookupField fs "content_quality" with
  | none => .error "content_quality missing"
  | some v =>
    match pyIntCoerce v with
    | none => .error "content_quality not an integer"
    | some n => if 1 ≤ n ∧ n ≤ 10 then .ok n else .error "content_quality out of range"

/-- Validation of a required `str` field. -/
def validateStrField (fs : List (String × JVal)) (k : String) : Except String String :=
  match lookupField fs k with
  | some (.jstr s) => .ok s
  | some _ => .error (k ++ " wrong shape")
  | none => .error (k ++ " missing")

/-- Validation of a required `List[str]` field. -/
def validateStrListField (fs : List (String × JVal)) (k : String) :
    Except String (List String) :=
  match lookupField fs k with
  | some (.jarr vs) =>
    vs.foldr
      (fun v acc =>
        match v, acc with
        | .jstr s, .ok l => .ok (s :: l)
        | _, _ => .error (k ++ " wrong shape"))
      (.ok [])
  | some _ => .error (k ++ " wrong shape")
  | none => .error (k ++ " missing")

/-- Pydantic construction `VideoAnalysisData(**structured_data)` over the
modelled fields: any invalid field fails the whole record. -/
def validateVideoAnalysisData (fs : List (String × JVal)) :
    Except String AnalysisRecordV := do
  let s ← validateStrField fs "summary"
  let mt ← validateStrListField fs "main_topics"
  let kp ← validateStrListField fs "key_points"
  let q ← validateContentQuality fs
  return ⟨s, mt, kp, q⟩

/-- The three ways `parse_structured_output` (src/agents/base_agent.py,
lines 71-86) can end. -/
inductive ParseOutcome where
  /-- The decoded record was valid. -/
  | parsed : AnalysisRecordV → ParseOutcome
  /-- `json.JSONDecodeError` was caught and fallback parsing was invoked. -/
  | fallbackRoute : ParseOutcome
  /-- Pydantic raised (`ValidationError`/`TypeError`), which the
  `except (json.JSONDecodeError, KeyError)` clause does not catch. -/
  | raised : String → ParseOutcome
deriving DecidableEq

/-- `parse_structured_output` on the model's response text. -/
def parse_structured_output (response : String) : ParseOutcome :=
  match jsonLoads response with
  | none => .fallbackRoute
  | some (.jobj fs) =>
    match validateVideoAnalysisData fs with
    | .ok r => .parsed r
    | .error e => .raised e
  | some _ => .raised "not a mapping"

/-! ## Claim-side definitions -/

/-- The position scan of the claim for sentiment extraction: the first
position of the lowered section text at which some vocabulary word starts.
Defined from the claim's words (first occurrence while scanning the text),
for comparison with the source's vocabulary-order scan. -/
def specFirstSentimentGo : List Char → Option String
  | [] => none
  | c :: t =>
    match ["positive", "negative", "neutral", "mixed", "controversial"].find?
        (fun k => charsPrefix k.toList (c :: t)) with
    | some k => some k
    | none => specFirstSentimentGo t

/-- The claim's sentiment extraction: the first occurrence, scanning the
concatenated section text case-insensitively, of any vocabulary word,
title-cased; absence yields "unknown". -/
def specFirstSentiment (text : String) : String :=
  match specFirstSentimentGo (pyLower text).toList with
  | some k => pyCapitalize k
  | none => "unknown"

/-! ## Concrete fixtures used in the theorems below -/

/-- An input record with no transcript. -/
def inputNoTranscript : InputData := ⟨"T", "C", []⟩

/-- An input record whose transcript ends at 10 seconds. -/
def inputShortTranscript : InputData := ⟨"T", "C", [⟨"x", 5, some 5⟩]⟩

/-- Model text with two topics whose start times are both established by
`label: value` pairs (in separate sections, as the per-section timestamp
dictionaries require): intro at 300 s, outro at 1200 s. -/
def rawTwoTimedTopics : String :=
  "Topics:\n- intro\n- outro\n# intro times\nintro: 5:00\n# outro times\noutro: 20:00"

/-- Model text with one timed topic at 600 s and an untimed later topic. -/
def rawLateTopic : String :=
  "Topics:\n- intro\n- outro\n# Timestamps\nintro: 10:00"

/-- Metadata returned by the fixture environments. -/
def metaFixture : MetaData := ⟨"Title0", "D", "Chan0", "2024", "PT5M"⟩

/-- A fully successful environment (transcript present, model answering
with a fenced-free JSON object, nothing raising). -/
def envAllOk : WorkflowEnv :=
  ⟨true, .ok (some metaFixture), some [⟨"hi", 0, some 2⟩],
    "\x7b\"summary\":\"x\",\"main_topics\":[\"a\"],\"key_points\":[\"b\"],\"software_mentions\":[]\x7d",
    false, none⟩

/-- An environment whose transcript fetch fails (returns null). -/
def envNoTranscript : WorkflowEnv :=
  ⟨true, .ok (some metaFixture), none, "resp", false, none⟩

/-- An environment in which the analysis node raises. -/
def envAnalysisRaises : WorkflowEnv :=
  ⟨true, .ok (some metaFixture), some [⟨"hi", 0, some 2⟩], "resp", true, none⟩

/-- The video URL used by the workflow fixtures. -/
def urlFixture : String := "https://youtu.be/vid01"

/-- A candidate mapping that is valid except for `content_quality = 11`. -/
def candidateQuality11 : List (String × JVal) :=
  [("summary", .jstr "s"), ("main_topics", .jarr []), ("key_points", .jarr []),
    ("content_quality", .jnum 11)]

/-- A candidate mapping with no `content_quality` at all. -/
def candidateNoQuality : List (String × JVal) :=
  [("summary", .jstr "s"), ("main_topics", .jarr []), ("key_points", .jarr [])]

/-- A candidate mapping whose `summary` has the wrong shape while every
other field is valid. -/
def candidateBadSummary : List (String × JVal) :=
  [("summary", .jnum 3), ("main_topics", .jarr []), ("key_points", .jarr []),
    ("content_quality", .jnum 7)]

/-- A model response whose greedy first-to-last brace span is not valid
JSON although it contains a balanced JSON object. -/
def respTwoSpans : String := "x \x7b\"a\":1\x7d y \x7b\"b\":2\x7d z"

/-- A model response carrying a fenced JSON block. -/
def respFenced : String := "pre ```json \x7b\"a\":1\x7d ``` post"

/-! # Theorems -/

/-! ## Helper lemmas shared by the claim theorems -/

/-- The summary field of one section-processing step. -/
theorem processSection_summary (input : InputData) (st : ExtractState)
    (sec : String × List String) :
    (processSection input st sec).summary = summaryOf st.summary sec.1 (joinSp sec.2) := rfl

/-- The summary field of the whole section loop is a fold of the summary
step alone. -/
theorem foldl_processSection_summary (input : InputData) :
    ∀ (secs : List (String × List String)) (st : ExtractState),
      (secs.foldl (processSection input) st).summary =
        secs.foldl (fun acc e => summaryOf acc e.1 (joinSp e.2)) st.summary := by
  intro secs
  induction secs with
  | nil => intro st; rfl
  | cons e rest ih =>
    intro st
    simp only [List.foldl_cons, ih, processSection_summary]

/-- The summary fold either keeps its initial value or returns the joined
content of some summary-keyed section. -/
theorem foldl_summary_cases :
    ∀ (secs : List (String × List String)) (init : String),
      secs.foldl (fun acc e => summaryOf acc e.1 (joinSp e.2)) init = init ∨
        ∃ e ∈ secs, strContains e.1 "summary" = true ∧
          secs.foldl (fun acc e => summaryOf acc e.1 (joinSp e.2)) init = joinSp e.2 := by
  intro secs
  induction secs with
  | nil => intro init; exact Or.inl rfl
  | cons e rest ih =>
    intro init
    simp only [List.foldl_cons]
    rcases ih (summaryOf init e.1 (joinSp e.2)) with h | ⟨e', he', hk, hv⟩
    · rw [h]
      unfold summaryOf
      split_ifs with hc
      · exact Or.inr ⟨e, List.mem_cons_self .., hc, rfl⟩
      · exact Or.inl rfl
    · exact Or.inr ⟨e', List.mem_cons_of_mem _ he', hk, hv⟩

/-- A non-empty string has positive length. -/
theorem string_ne_empty_length (s : String) (h : s ≠ "") : 0 < s.length := by
  rcases s with ⟨data⟩
  cases data with
  | nil => exact absurd rfl h
  | cons c t => simp [String.length]

/-- Joining a non-empty list of non-empty strings is non-empty. -/
theorem joinSp_ne_empty : ∀ (l : List String), l ≠ [] → (∀ c ∈ l, c ≠ "") → joinSp l ≠ "" := by
  intro l
  match l with
  | [] => intro h; exact absurd rfl h
  | [x] =>
    intro _ hc
    exact hc x (List.mem_singleton_self x)
  | x :: y :: rest =>
    intro _ hc h
    have hx := string_ne_empty_length x (hc x (List.mem_cons_self ..))
    have h2 : x ++ " " ++ joinSp (y :: rest) = "" := h
    have h3 := congrArg String.length h2
    simp only [String.length_append] at h3
    have h4 : ("" : String).length = 0 := rfl
    have h5 : (" " : String).length = 1 := rfl
    omega

/-- `resetKey` preserves "all stored content lines are non-empty". -/
theorem resetKey_contents (secs : List (String × List String)) (k : String)
    (h : ∀ e ∈ secs, ∀ c ∈ e.2, c ≠ "") :
    ∀ e ∈ resetKey secs k, ∀ c ∈ e.2, c ≠ "" := by
  unfold resetKey
  split_ifs with _
  · intro e he
    rcases List.mem_map.mp he with ⟨e', he', rfl⟩
    by_cases hk : e'.1 == k
    · simp only [hk, if_true, if_pos]
      intro c hc
      simp at hc
    · simp only [hk]
      intro c hc
      exact h e' he' c (by simpa [hk] using hc)
  · intro e he
    rcases List.mem_append.mp he with h1 | h1
    · exact h e h1
    · rcases List.mem_singleton.mp h1 with rfl
      intro c hc
      simp at hc

/-- `appendKey` with a non-empty line preserves the same invariant. -/
theorem appendKey_contents (secs : List (String × List String)) (k v : String)
    (hv : v ≠ "") (h : ∀ e ∈ secs, ∀ c ∈ e.2, c ≠ "") :
    ∀ e ∈ appendKey secs k v, ∀ c ∈ e.2, c ≠ "" := by
  unfold appendKey
  intro e he
  rcases List.mem_map.mp he with ⟨e', he', rfl⟩
  by_cases hk : e'.1 == k
  · simp only [hk, if_true]
    intro c hc
    rcases (by simpa [hk] using hc : c ∈ e'.2 ∨ c = v) with h1 | h1
    · exact h e' he' c h1
    · subst h1; exact hv
  · simp only [hk]
    intro c hc
    exact h e' he' c (by simpa [hk] using hc)

/-- Every content line stored by the section splitter is non-empty (lines
are appended only when their stripped form is non-empty). -/
theorem splitSectionsGo_contents :
    ∀ (lines : List String) (secs : List (String × List String)) (cur : Option String),
      (∀ e ∈ secs, ∀ c ∈ e.2, c ≠ "") →
      ∀ e ∈ splitSectionsGo secs cur lines, ∀ c ∈ e.2, c ≠ "" := by
  intro lines
  induction lines with
  | nil => intro secs cur h; simpa [splitSectionsGo] using h
  | cons line rest ih =>
    intro secs cur h
    rw [splitSectionsGo.eq_def]
    dsimp only
    by_cases hh : isHeaderLine line
    · rw [if_pos hh]
      exact ih _ _ (resetKey_contents secs _ h)
    · rw [if_neg hh]
      cases cur with
      | none => exact ih _ _ h
      | some k =>
        dsimp only
        by_cases hcond : k ≠ "" ∧ pyStrip line ≠ ""
        · rw [if_pos hcond]
          exact ih _ _ (appendKey_contents secs k _ hcond.2 h)
        · rw [if_neg hcond]
          exact ih _ _ h

/-- The generated step-9 placeholder summary is never empty. -/
theorem genericSummary_ne_empty (input : InputData) : genericSummary input ≠ "" := by
  intro h
  have h3 := congrArg String.length h
  simp only [genericSummary, String.length_append] at h3
  have h4 : ("This video titled '" : String).length = 19 := rfl
  have h5 : ("" : String).length = 0 := rfl
  omega

/-- With an empty transcript, every segment the timestamp branch emits has
`end_time = start_time + 300` (the next-topic search result is discarded by
the inverted default, and the transcript-tail branch is unreachable). -/
theorem segsOf_end300 (input : InputData) (hT : input.transcript = [])
    (tops : List String) (ctext : String) :
    ∀ seg ∈ segsOf input tops ctext, seg.end_time = seg.start_time + 300 := by
  intro seg hseg
  unfold segsOf at hseg
  dsimp only at hseg
  rcases List.mem_filterMap.mp hseg with ⟨topic, _, hf⟩
  cases hlk : lookupTimes (extract_timestamps ctext) (pyLower topic) with
  | none => rw [hlk] at hf; simp at hf
  | some st =>
    rw [hlk] at hf
    dsimp only at hf
    rw [hT] at hf
    simp only [List.isEmpty_nil, Bool.not_true, Bool.and_false, Bool.false_eq_true,
      if_false, Option.some.injEq] at hf
    rw [← hf]

/-- The `end_time = start_time + 300` property propagates through the
whole section loop when the transcript is empty. -/
theorem foldl_segments_inv (input : InputData) (hT : input.transcript = []) :
    ∀ (secs : List (String × List String)) (st : ExtractState),
      (∀ s ∈ st.topic_segments, s.end_time = s.start_time + 300) →
      ∀ s ∈ (secs.foldl (processSection input) st).topic_segments,
        s.end_time = s.start_time + 300 := by
  intro secs
  induction secs with
  | nil => intro st h; simpa using h
  | cons e rest ih =>
    intro st h
    simp only [List.foldl_cons]
    apply ih
    intro s hs
    have hps : (processSection input st e).topic_segments =
        st.topic_segments ++ segsOf input (topicsOf st.main_topics e.1 e.2) (joinSp e.2) := rfl
    rw [hps] at hs
    rcases List.mem_append.mp hs with h1 | h1
    · exact h s h1
    · exact segsOf_end300 input hT _ _ s h1

/-- The spec-modelled default insights record is marked auto-generated. -/
theorem strContains_auto_prefix (s : String) :
    strContains ("auto-generated" ++ s) "auto-generated" = true := rfl

/-- A record accepted by `validateVideoAnalysisData` passed the
`content_quality` validation. -/
theorem validate_ok_quality (fs : List (String × JVal)) (r : AnalysisRecordV)
    (h : validateVideoAnalysisData fs = .ok r) :
    validateContentQuality fs = .ok r.content_quality := by
  unfold validateVideoAnalysisData at h
  cases hs : validateStrField fs "summary" with
  | error e => rw [hs] at h; exact absurd h (by simp [Bind.bind, Except.bind])
  | ok s =>
    rw [hs] at h
    simp only [Bind.bind, Except.bind] at h
    cases hmt : validateStrListField fs "main_topics" with
    | error e => rw [hmt] at h; exact absurd h (by simp)
    | ok mt =>
      rw [hmt] at h
      cases hkp : validateStrListField fs "key_points" with
      | error e => rw [hkp] at h; exact absurd h (by simp)
      | ok kp =>
        rw [hkp] at h
        cases hq : validateContentQuality fs with
        | error e => rw [hq] at h; exact absurd h (by simp [Pure.pure, Except.pure])
        | ok q =>
          rw [hq] at h
          simp only [Pure.pure, Except.pure, Except.ok.injEq] at h
          rw [← h]

/-! ## Claim theorems -/

/-- C6: the timestamp normalizer tries its patterns in the fixed order
`H:MM:SS`, `M:SS`, `XmYs`, `Xm`, `Xs`, bare float with the conversions
`H*3600+M*60+S`, `M*60+S`, `X*60+Y`, `X*60`, `X`, float pass-through, so
"1:02:03" yields 3723 (not the 62 that the later `M:SS` pattern would
give), "5:30" yields 330, "5m30s" yields 330, "5m" yields 300, "45s"
yields 45, "12.5" yields 12.5; the ISO-8601 duration "PT21M53S" yields
1313 total seconds and a malformed duration string yields 0 rather than
an exception. -/
theorem timestamp_patterns_evaluate :
    matchTimestampValue "1:02:03" = some 3723 ∧
    matchTimestampValue "5:30" = some 330 ∧
    matchTimestampValue "5m30s" = some 330 ∧
    matchTimestampValue "5m" = some 300 ∧
    matchTimestampValue "45s" = some 45 ∧
    matchTimestampValue "12.5" = some (25 / 2 : ℚ) ∧
    parse_duration "PT21M53S" = 1313 ∧
    parse_duration "not-a-time" = 0 := by
  refine ⟨?_, ?_, ?_, ?_, ?_, ?_, ?_, ?_⟩ <;> with_unfolding_all rfl

/-- C1: evaluation of `fallback_parsing` at the failing input.  The text
establishes intro at 300 s and outro at 1200 s, both by `label: value`
pairs whose labels equal the topics; the claim (and the source's own
comments) say intro's end time should be 1200 — the smallest start of a
strictly later topic — but the code produces 600 (start + 300), because
its timestamp dictionaries are built per section (so the next-topic search
can never see another topic) and because the `if not end_time and
transcript` / `else: start + 300` default overwrites any end time the
search could find. -/
theorem fallback_end_time_at_failing_input :
    (fallback_parsing inputNoTranscript rawTwoTimedTopics).topic_segments =
      [⟨"intro", 300, 600, []⟩, ⟨"outro", 1200, 1500, []⟩] := by
  with_unfolding_all rfl

/-- C2 counterexample: with a transcript ending at 10 s and a topic whose
start time is established at 600 s, the produced topic segment has
`end_time = 10 < 600 = start_time`, refuting the invariant for this input
text and transcript. -/
theorem topic_segment_end_before_start_example :
    ∃ seg ∈ (fallback_parsing inputShortTranscript rawLateTopic).topic_segments,
      seg.end_time < seg.start_time := by
  with_unfolding_all decide

/-- C3 counterexample: a text consisting of a summary section header with
no content lines makes the extracted summary the empty string — the joined
empty section replaces the sentinel, so the generated placeholder of step 9
is not produced — refuting the non-empty-summary part of the claim. -/
theorem fallback_empty_summary_example :
    (fallback_parsing inputNoTranscript "Summary:").summary = "" := by
  with_unfolding_all rfl

/-- C4 counterexample: when the analysis node fails, the returned terminal
state records an error description but `error_node` stays unset, refuting
the claim that on any failure both the error and the failing stage's name
are recorded. -/
theorem run_workflow_missing_error_node_example :
    (run_workflow envAnalysisRaises urlFixture).1.error = some "analysis node error" ∧
    (run_workflow envAnalysisRaises urlFixture).1.error_node = none := by
  refine ⟨?_, ?_⟩ <;> with_unfolding_all rfl

/-- C5 counterexample: a numeric `content_quality` of 11 makes validation
of the whole candidate record fail instead of clamping to 10; an absent
`content_quality` fails the record instead of defaulting to 5; and a
wrong-shaped `summary` rejects the whole record rather than defaulting
only that field. -/
theorem content_quality_not_clamped_example :
    validateVideoAnalysisData candidateQuality11 = .error "content_quality out of range" ∧
    validateVideoAnalysisData candidateNoQuality = .error "content_quality missing" ∧
    validateVideoAnalysisData candidateBadSummary = .error "summary wrong shape" := by
  refine ⟨?_, ?_, ?_⟩ <;> with_unfolding_all rfl

/-- C7 counterexample: on a response holding two disjoint JSON objects in
plain text, the claim's staging (direct decode, then fenced block, then
first *balanced* brace span) succeeds with the first object, but the code
— which tries the fenced regex, then the *greedy* first-to-last brace
span, and the whole text only when neither regex matched — fails and
routes to fallback, because the greedy span is not valid JSON. -/
theorem parse_json_response_order_example :
    parse_json_response respTwoSpans = none ∧
    specStrictParse respTwoSpans = some (.jobj [("a", .jnum 1)]) := by
  refine ⟨?_, ?_⟩ <;> with_unfolding_all rfl

/-- C8 counterexample: with the transcript fetch failing, the run's final
state has `transcript_extraction_completed = true` (the flag is set
unconditionally once the transcript agent returns), and the model is not
invoked (the insights agent short-circuits on an empty transcript),
refuting both the claimed flag value and the claimed model invocation. -/
theorem run_workflow_transcript_flag_example :
    (run_workflow envNoTranscript urlFixture).1.transcript_extraction_completed = true ∧
    (run_workflow envNoTranscript urlFixture).2 = false := by
  refine ⟨?_, ?_⟩ <;> with_unfolding_all rfl

/-- C9 counterexample: in a sentiment section reading "The tone is
negative with some positive notes", the first vocabulary word occurring in
the text is "negative", but the code reports "Positive", because it scans
the vocabulary in its fixed order and takes the first *vocabulary word*
present anywhere, not the first occurrence in the text. -/
theorem sentiment_vocab_order_example :
    (fallback_parsing inputNoTranscript
        "Sentiment:\nThe tone is negative with some positive notes").sentiment = "Positive" ∧
    specFirstSentiment "The tone is negative with some positive notes" = "Negative" ∧
    ("Positive" : String) ≠ "Negative" := by
  refine ⟨?_, ?_, ?_⟩
  · with_unfolding_all rfl
  · with_unfolding_all rfl
  · with_unfolding_all decide

/-- C10: `get_video_id_from_url` is total (it is a plain function into
`Option`, the embedded image of the source's catch-all `except` returning
`None`): for every input string it either returns `none` or returns an
identifier embedded in one of the four recognized YouTube URL shapes
(youtu.be path, youtube.com `/watch` with a `v` query parameter,
`/embed/` path, `/v/` path); the concrete conjuncts evaluate one URL of
each shape and two unrecognized inputs. -/
theorem get_video_id_from_url_shapes :
    (∀ url, get_video_id_from_url url = none ∨
      ∃ id, get_video_id_from_url url = some id ∧ RecognizedYoutubeUrl (pyUrlparse url) id) ∧
    get_video_id_from_url "https://youtu.be/abc123" = some "abc123" ∧
    get_video_id_from_url "https://www.youtube.com/watch?v=abc123" = some "abc123" ∧
    get_video_id_from_url "https://youtube.com/embed/abc123" = some "abc123" ∧
    get_video_id_from_url "https://www.youtube.com/v/abc123" = some "abc123" ∧
    get_video_id_from_url "https://example.com/watch?v=abc123" = none ∧
    get_video_id_from_url "not a url" = none := by
  refine ⟨?_, ?_, ?_, ?_, ?_, ?_, ?_⟩
  · intro url
    unfold get_video_id_from_url RecognizedYoutubeUrl
    dsimp only
    split_ifs with h1 h2 h3 h4 h5
    · exact Or.inr ⟨_, rfl, Or.inl ⟨h1, rfl⟩⟩
    · cases hh : (parseQsV (pyUrlparse url).query).head? with
      | none => exact Or.inl rfl
      | some id => exact Or.inr ⟨id, rfl, Or.inr (Or.inl ⟨h2, h3, rfl⟩)⟩
    · cases hh : ((splitCharList '/' (pyUrlparse url).path.toList).map String.mk).get? 2 with
      | none => exact Or.inl rfl
      | some id => exact Or.inr ⟨id, rfl, Or.inr (Or.inr (Or.inl ⟨h2, h4, rfl⟩))⟩
    · cases hh : ((splitCharList '/' (pyUrlparse url).path.toList).map String.mk).get? 2 with
      | none => exact Or.inl rfl
      | some id => exact Or.inr ⟨id, rfl, Or.inr (Or.inr (Or.inr ⟨h2, h5, rfl⟩))⟩
    · exact Or.inl rfl
    · exact Or.inl rfl
  all_goals with_unfolding_all rfl

/-- C2 (amended): every topic segment produced by the fallback extractor's
topic-to-time alignment satisfies `end_time >= start_time` for every input
text *whenever the input transcript is empty* (each end time is then
`start + 300`); with a non-empty transcript the invariant can fail,
because a segment's end time is taken from the last transcript entry
regardless of the topic's start time. -/
theorem topic_segment_end_ge_start_empty_transcript (input : InputData) (raw : String)
    (hT : input.transcript = []) :
    ∀ seg ∈ (fallback_parsing input raw).topic_segments,
      seg.start_time ≤ seg.end_time := by
  intro seg hseg
  have hseg' : seg ∈ ((splitSectionsGo [] none (pySplitLines raw)).foldl
      (processSection input) initExtractState).topic_segments := hseg
  have h := foldl_segments_inv input hT _ initExtractState (by simp [initExtractState]) seg hseg'
  rw [h]
  linarith

set_option maxRecDepth 8000 in
/-- C2 witness: the empty-transcript input with the two-topic text
produces the segment `intro [300, 600]`, which satisfies the invariant. -/
theorem topic_segment_end_ge_start_witness :
    inputNoTranscript.transcript = [] ∧
    (⟨"intro", 300, 600, []⟩ : TopicSegment).start_time ≤
      (⟨"intro", 300, 600, []⟩ : TopicSegment).end_time :=
  ⟨rfl, topic_segment_end_ge_start_empty_transcript inputNoTranscript rawTwoTimedTopics rfl
    ⟨"intro", 300, 600, []⟩ (by with_unfolding_all decide)⟩

/-- C3 (amended): for any input text, the fallback extractor returns a
record with `content_quality = 5 ∈ [1, 10]`, at most 7 main topics and at
most 8 key points, and never raises (it is a total function); the summary
is non-empty *except* when a detected summary section has no content
lines, in which case the summary is the empty string. -/
theorem fallback_parsing_bounds (input : InputData) (raw : String) :
    1 ≤ (fallback_parsing input raw).content_quality ∧
    (fallback_parsing input raw).content_quality ≤ 10 ∧
    (fallback_parsing input raw).main_topics.length ≤ 7 ∧
    (fallback_parsing input raw).key_points.length ≤ 8 ∧
    ((fallback_parsing input raw).summary ≠ "" ∨
      ∃ e ∈ splitSectionsGo [] none (pySplitLines raw),
        strContains e.1 "summary" = true ∧ e.2 = []) := by
  unfold fallback_parsing fallbackCore
  dsimp only
  refine ⟨?_, ?_, ?_, ?_, ?_⟩
  · norm_num
  · norm_num
  · split_ifs <;> simp [List.length_take]
  · split_ifs <;> simp [List.length_take]
  · have hsum : ((splitSectionsGo [] none (pySplitLines raw)).foldl (processSection input)
        initExtractState).summary =
        (splitSectionsGo [] none (pySplitLines raw)).foldl
          (fun acc e => summaryOf acc e.1 (joinSp e.2)) failSentinel :=
      foldl_processSection_summary input _ initExtractState
    rcases foldl_summary_cases (splitSectionsGo [] none (pySplitLines raw)) failSentinel with
      hcase | ⟨e, he, hk, hv⟩
    · left
      rw [hsum, hcase]
      simp only [beq_self_eq_true, ite_true]
      exact genericSummary_ne_empty input
    · by_cases hbe : ((splitSectionsGo [] none (pySplitLines raw)).foldl (processSection input)
          initExtractState).summary == failSentinel
      · left
        rw [if_pos hbe]
        exact genericSummary_ne_empty input
      · rw [if_neg hbe]
        by_cases h2 : e.2 = []
        · right
          exact ⟨e, he, hk, h2⟩
        · left
          rw [hsum, hv]
          exact joinSp_ne_empty e.2 h2
            (splitSectionsGo_contents (pySplitLines raw) [] none (by simp) e he)

/-- C4 (amended): `run_workflow` always returns a terminal state without
raising (it is a total function); on manager-detected failures (an
unusable video id or a missing API key) both `error` and
`error_node = "workflow_manager"` are set and the state carries neither a
video record nor an analysis record; on an analysis-node failure only
`error` is set and `error_node` stays unset while the video record is
present; and when nothing fails both error fields are unset and the state
carries the video and analysis records. -/
theorem run_workflow_error_reporting (env : WorkflowEnv) (url : String) :
    ((get_video_id_from_url url = none ∨ get_video_id_from_url url = some "" ∨
        env.apiKeyPresent = false) →
      (run_workflow env url).1.error.isSome = true ∧
      (run_workflow env url).1.error_node = some "workflow_manager" ∧
      (run_workflow env url).1.video_data = none ∧
      (run_workflow env url).1.analysis_result = none) ∧
    (∀ vid, get_video_id_from_url url = some vid → vid ≠ "" → env.apiKeyPresent = true →
      env.analysisRaises = true →
      (run_workflow env url).1.error = some "analysis node error" ∧
      (run_workflow env url).1.error_node = none ∧
      (run_workflow env url).1.video_data.isSome = true) ∧
    (∀ vid, get_video_id_from_url url = some vid → vid ≠ "" → env.apiKeyPresent = true →
      env.analysisRaises = false →
      (run_workflow env url).1.error = none ∧
      (run_workflow env url).1.error_node = none ∧
      (run_workflow env url).1.video_data.isSome = true ∧
      (run_workflow env url).1.analysis_result.isSome = true ∧
      (run_workflow env url).1.transcript_analysis_completed = true) := by
  refine ⟨?_, ?_, ?_⟩
  · intro h
    unfold run_workflow
    cases hv : get_video_id_from_url url with
    | none => exact ⟨rfl, rfl, rfl, rfl⟩
    | some vid =>
      rcases h with h | h | h
      · rw [hv] at h; exact absurd h (by simp)
      · rw [hv] at h
        have hvid : vid = "" := by injection h
        dsimp only
        rw [if_pos hvid]
        exact ⟨rfl, rfl, rfl, rfl⟩
      · dsimp only
        by_cases hvid : vid = ""
        · rw [if_pos hvid]
          exact ⟨rfl, rfl, rfl, rfl⟩
        · rw [if_neg hvid, if_pos (by simp [h])]
          exact ⟨rfl, rfl, rfl, rfl⟩
  · intro vid hv hne hkey hra
    unfold run_workflow
    rw [hv]
    dsimp only
    rw [if_neg hne, if_neg (by simp [hkey])]
    unfold analysisNodeProcess
    dsimp only
    rw [if_pos hra]
    exact ⟨rfl, rfl, rfl⟩
  · intro vid hv hne hkey hra
    unfold run_workflow
    rw [hv]
    dsimp only
    rw [if_neg hne, if_neg (by simp [hkey])]
    unfold analysisNodeProcess
    dsimp only
    rw [if_neg (by simp [hra])]
    exact ⟨rfl, rfl, rfl, rfl, rfl⟩

/-- C4 witness: the fully successful fixture run ends with no error, no
error node, and both records present. -/
theorem run_workflow_error_reporting_witness :
    (run_workflow envAllOk urlFixture).1.error = none ∧
    (run_workflow envAllOk urlFixture).1.error_node = none ∧
    (run_workflow envAllOk urlFixture).1.video_data.isSome = true ∧
    (run_workflow envAllOk urlFixture).1.analysis_result.isSome = true ∧
    (run_workflow envAllOk urlFixture).1.transcript_analysis_completed = true :=
  (run_workflow_error_reporting envAllOk urlFixture).2.2 "vid01"
    (by with_unfolding_all rfl) (by decide) rfl rfl

/-- C5 (amended): during validation of a candidate analysis record, a
`content_quality` that is numeric but outside `[1, 10]` is not clamped —
it makes validation of the whole record fail; an absent or non-numeric
`content_quality` likewise fails the whole record instead of defaulting to
5; a wrong-shaped field fails the record, not just the field.  The
recovery that produces `content_quality = 5` is the enhancement agent's
fallback parsing, whose records always carry 5. -/
theorem content_quality_whole_record_failure :
    (∀ fs, lookupField fs "content_quality" = none →
      ∀ r, validateVideoAnalysisData fs ≠ .ok r) ∧
    (∀ fs (n : ℤ), lookupField fs "content_quality" = some (.jnum (n : ℚ)) →
      (n < 1 ∨ 10 < n) → ∀ r, validateVideoAnalysisData fs ≠ .ok r) ∧
    (∀ fs v, lookupField fs "content_quality" = some v → pyIntCoerce v = none →
      ∀ r, validateVideoAnalysisData fs ≠ .ok r) ∧
    (∀ input raw, (fallback_parsing input raw).content_quality = 5) := by
  refine ⟨?_, ?_, ?_, fun input raw => rfl⟩
  · intro fs hlk r h
    have hq := validate_ok_quality fs r h
    unfold validateContentQuality at hq
    rw [hlk] at hq
    exact absurd hq (by simp)
  · intro fs n hlk hrange r h
    have hq := validate_ok_quality fs r h
    unfold validateContentQuality at hq
    rw [hlk] at hq
    have hcoerce : pyIntCoerce (.jnum (n : ℚ)) = some n := by
      simp [pyIntCoerce, Rat.den_intCast, Rat.num_intCast]
    dsimp only at hq
    rw [hcoerce] at hq
    dsimp only at hq
    rw [if_neg (by omega)] at hq
    exact absurd hq (by simp)
  · intro fs v hlk hco r h
    have hq := validate_ok_quality fs r h
    unfold validateContentQuality at hq
    rw [hlk] at hq
    dsimp only at hq
    rw [hco] at hq
    exact absurd hq (by simp)

/-- C5 witness: the candidate with `content_quality = 11` is rejected, not
accepted with a clamped value of 10. -/
theorem content_quality_whole_record_witness :
    validateVideoAnalysisData candidateQuality11 ≠ .ok ⟨"s", [], [], 10⟩ :=
  content_quality_whole_record_failure.2.1 candidateQuality11 11
    (by with_unfolding_all rfl) (by omega) ⟨"s", [], [], 10⟩

/-- C7 (amended): output parsing attempts, in order and stopping at the
first *matching extraction* rather than the first successful decode: (a)
the ```json fenced block, whose contents are decoded if the fence is
found; (b) otherwise the greedy span from the first opening brace to the
last closing brace, if both exist; (c) otherwise the whole text.  A decode
failure of the chosen stage is not retried by later stages; it — and any
non-mapping decode — routes control to fallback extraction, and the
failure is not escalated to the caller. -/
theorem parse_json_response_stage_order :
    (∀ s inner, findFencedJson s = some inner → parse_json_response s = jsonLoads inner) ∧
    (∀ s sp, findFencedJson s = none → braceSpan s = some sp →
      parse_json_response s = jsonLoads sp) ∧
    (∀ s, findFencedJson s = none → braceSpan s = none →
      parse_json_response s = jsonLoads s) ∧
    (∀ title channel transcript response, transcript ≠ [] →
      parse_json_response response = none →
      insightsRun title channel transcript response = (insightsFallback response, true)) := by
  refine ⟨?_, ?_, ?_, ?_⟩
  · intro s inner h
    unfold parse_json_response
    rw [h]
  · intro s sp h1 h2
    unfold parse_json_response
    rw [h1, h2]
  · intro s h1 h2
    unfold parse_json_response
    rw [h1, h2]
  · intro t ch tr resp hne hp
    unfold insightsRun
    rw [if_neg (by simpa using hne)]
    rw [hp]

/-- C7 witness: on the fenced fixture response, parsing decodes exactly
the fenced block's contents. -/
theorem parse_json_response_stage_order_witness :
    parse_json_response respFenced = jsonLoads "\x7b\"a\":1\x7d" :=
  parse_json_response_stage_order.1 respFenced "\x7b\"a\":1\x7d" (by with_unfolding_all rfl)

/-- C8 (amended): when the transcript fetch fails (returns null), metadata
is still fetched and used, but the model is *not* invoked — the insights
agent short-circuits on the empty transcript and returns the spec-modelled
default record, whose summary carries the auto-generated marker — and the
final state has `transcript_extraction_completed = true`: the flag records
that the extraction stage ran, not that a transcript was found. -/
theorem run_workflow_missing_transcript (env : WorkflowEnv) (url vid : String)
    (m : MetaData) (hv : get_video_id_from_url url = some vid) (hne : vid ≠ "")
    (hkey : env.apiKeyPresent = true) (hm : env.metadataOutcome = .ok (some m))
    (ht : env.transcriptFetch = none) (hra : env.analysisRaises = false) :
    (run_workflow env url).2 = false ∧
    (run_workflow env url).1.transcript_extraction_completed = true ∧
    (run_workflow env url).1.video_data =
      some { video_id := vid, title := m.title, description := m.description,
             channel := m.channelTitle, published_at := m.publishedAt,
             transcript := [], duration := parse_duration m.durationIso } ∧
    (run_workflow env url).1.analysis_result =
      some (defaultInsights m.title m.channelTitle) ∧
    strContains (defaultInsights m.title m.channelTitle).summary "auto-generated" = true := by
  have hvd : transcriptAgentRun env vid =
      { video_id := vid, title := m.title, description := m.description,
        channel := m.channelTitle, published_at := m.publishedAt,
        transcript := [], duration := parse_duration m.durationIso } := by
    unfold transcriptAgentRun
    rw [hm, ht]
    rfl
  unfold run_workflow
  rw [hv]
  dsimp only
  rw [if_neg hne, if_neg (by simp [hkey])]
  unfold analysisNodeProcess
  dsimp only
  rw [if_neg (by simp [hra]), hvd]
  refine ⟨rfl, rfl, rfl, ?_, strContains_auto_prefix _⟩
  unfold insightsRun
  rfl

/-- C8 witness: the no-transcript fixture run instantiates the theorem. -/
theorem run_workflow_missing_transcript_witness :
    (run_workflow envNoTranscript urlFixture).2 = false ∧
    (run_workflow envNoTranscript urlFixture).1.transcript_extraction_completed = true ∧
    (run_workflow envNoTranscript urlFixture).1.video_data =
      some { video_id := "vid01", title := metaFixture.title,
             description := metaFixture.description, channel := metaFixture.channelTitle,
             published_at := metaFixture.publishedAt, transcript := [],
             duration := parse_duration metaFixture.durationIso } ∧
    (run_workflow envNoTranscript urlFixture).1.analysis_result =
      some (defaultInsights metaFixture.title metaFixture.channelTitle) ∧
    strContains (defaultInsights metaFixture.title metaFixture.channelTitle).summary
      "auto-generated" = true :=
  run_workflow_missing_transcript envNoTranscript urlFixture "vid01" metaFixture
    (by with_unfolding_all rfl) (by decide) rfl rfl rfl rfl

/-- C9 (amended): for a section whose header matches "sentiment"/"tone",
the extracted sentiment is determined by scanning the *vocabulary* in the
fixed order (positive, negative, neutral, mixed, controversial) and taking
the first vocabulary word that occurs anywhere in the lowered section
text, title-cased; when none occurs the sentiment keeps its previous value
(initially "Unknown") — it is not the first occurrence position-wise in
the text. -/
theorem sentiment_scan_vocab_order (input : InputData) (c : String)
    (h3 : pySplitLines ("Sentiment:\n" ++ c) = ["Sentiment:", c])
    (h1 : isHeaderLine c = false) (h2 : pyStrip c ≠ "") :
    (fallback_parsing input ("Sentiment:\n" ++ c)).sentiment =
      sentimentScan (pyStrip c) "Unknown" := by
  unfold fallback_parsing
  rw [h3]
  have hsec : splitSectionsGo [] none ["Sentiment:", c] = [("sentiment", [pyStrip c])] := by
    rw [splitSectionsGo.eq_def]
    dsimp only
    rw [if_pos (by with_unfolding_all rfl : isHeaderLine "Sentiment:" = true)]
    have hcn : cleanSectionName "Sentiment:" = "sentiment" := by with_unfolding_all rfl
    rw [hcn]
    rw [splitSectionsGo.eq_def]
    dsimp only
    rw [if_neg (by simp [h1])]
    rw [if_pos ⟨by decide, h2⟩]
    rfl
  unfold fallbackCore
  rw [hsec]
  with_unfolding_all rfl

/-- C9 witness: a concrete sentiment section whose text mentions
"negative" before "positive" still yields "Positive". -/
theorem sentiment_scan_vocab_order_witness :
    (fallback_parsing inputNoTranscript
        ("Sentiment:\n" ++ "mostly negative yet positive")).sentiment =
      sentimentScan (pyStrip "mostly negative yet positive") "Unknown" ∧
    sentimentScan (pyStrip "mostly negative yet positive") "Unknown" = "Positive" :=
  ⟨sentiment_scan_vocab_order inputNoTranscript "mostly negative yet positive"
      (by with_unfolding_all rfl) (by with_unfolding_all rfl) (by with_unfolding_all decide),
    by with_unfolding_all rfl⟩

end YT
